import Mathlib

/-!
Shallow embedding of the core logic of the AI automatic video editor
(src/App.tsx, src/components/VideoTimeline.tsx,
src/components/ExportOptions.tsx).

JavaScript numbers are modelled as rationals (ℚ): every arithmetic
operation the embedded code performs (addition, multiplication, division,
min, max, floor, round) is exact on the values that occur, so ℚ is a
faithful carrier.  Machine randomness (Math.random) is modelled as an
explicit parameter constrained to [0, 1).
-/

/-- Status values of a `VideoProject` (App.tsx, `VideoProject.status`). -/
inductive ProjectStatus
  | uploading
  | processing
  | completed
  | error
deriving DecidableEq

/-- A project entry of the processing queue (App.tsx, `VideoProject`).
Only the fields the claims are about are carried; `id` is the opaque
identity (`Date.now().toString()` in the source, modelled as ℕ). -/
structure VideoProject where
  id : ℕ
  name : String
  status : ProjectStatus
  progress : ℚ
deriving DecidableEq

/-- JavaScript truncation toward zero, as used by the `%` operator on
numbers. -/
def jsTrunc (q : ℚ) : ℤ :=
  if 0 ≤ q then ⌊q⌋ else ⌈q⌉

/-- JavaScript remainder `a % b` on numbers: `a - b * trunc (a / b)`. -/
def jsFmod (a b : ℚ) : ℚ :=
  a - b * (jsTrunc (a / b) : ℚ)

/-- JavaScript `s.padStart(2, c0)` where `c0` is the zero digit:
prepend zero digits until the length reaches 2. -/
def padTwo (s : String) : String :=
  if s.length < 2 then String.mk (List.replicate (2 - s.length) '0') ++ s
  else s

namespace App

/-- The `duration` state of App.tsx, line 77: 154 seconds. -/
def duration : ℚ := 154

/-- Allowed MIME types of `validateVideoFile` (App.tsx line 105). -/
def allowedTypes : List String :=
  ["video/mp4", "video/mov", "video/avi", "video/mkv", "video/webm"]

/-- The maximum file size of `validateVideoFile` (App.tsx line 104):
500 MB. -/
def maxSize : ℕ := 500 * 1024 * 1024

/-- Error message returned for a disallowed MIME type. -/
def typeErrorMsg : String :=
  "Please upload a valid video file (MP4, MOV, AVI, MKV, WebM)"

/-- Error message returned for an oversized file. -/
def sizeErrorMsg : String := "File size must be less than 500MB"

/-- Result record of `validateVideoFile`. -/
structure ValidationResult where
  valid : Bool
  error : Option String
deriving DecidableEq

/-- App.tsx `validateVideoFile` (lines 103-116): the type check runs
first, then the strict size check `file.size > maxSize`. -/
def validateVideoFile (fileType : String) (fileSize : ℕ) : ValidationResult :=
  if ¬ (allowedTypes.contains fileType) then ⟨false, some typeErrorMsg⟩
  else if maxSize < fileSize then ⟨false, some sizeErrorMsg⟩
  else ⟨true, none⟩

/-- Outcome of a `handleFileUpload` call: the source either returns
silently (no user), shows a toast and returns (invalid file), or prepends
the new project to the queue. -/
inductive UploadOutcome
  | ignored
  | rejected (message : String)
  | started (projects : List VideoProject)
deriving DecidableEq

/-- App.tsx `handleFileUpload` (lines 118-139), the synchronous part that
decides whether a submission is accepted: no field of the existing
`projects` list is ever inspected — in particular no check for an already
active job for the same asset exists. -/
def handleFileUpload (hasUser : Bool) (projects : List VideoProject)
    (fileType : String) (fileSize : ℕ) (fileName : String) (newId : ℕ) :
    UploadOutcome :=
  if ¬ hasUser then .ignored
  else
    let validation := validateVideoFile fileType fileSize
    if validation.valid = false then .rejected (validation.error.getD "")
    else .started ({ id := newId, name := fileName,
                     status := .uploading, progress := 0 } :: projects)

/-- App.tsx lines 148-154: the `onProgress` callback of the storage
upload writes `progress = Math.min(percent, 15)` into the project with
the matching id. -/
def uploadProgressUpdate (p : VideoProject) (pid : ℕ) (percent : ℚ) :
    VideoProject :=
  if p.id = pid then { p with progress := min percent 15 } else p

/-- App.tsx lines 159-163: after the upload resolves, the project with
the matching id is set to `status = processing, progress = 15`. -/
def uploadCompleteUpdate (p : VideoProject) (pid : ℕ) : VideoProject :=
  if p.id = pid then { p with status := .processing, progress := 15 }
  else p

/-- The `processingSteps` table of `simulateProcessing`
(App.tsx lines 225-233): step label and target progress. -/
def processingSteps : List (String × ℚ) :=
  [("Uploading video...", 15),
   ("Analyzing video content...", 30),
   ("Detecting scenes and cuts...", 45),
   ("Processing audio tracks...", 60),
   ("Applying AI enhancements...", 75),
   ("Generating transitions...", 90),
   ("Finalizing output...", 100)]

/-- Target progress of step `i` (`processingSteps[currentStepIndex]`). -/
def stepTargetAt (i : ℕ) : ℚ := (processingSteps.getD i ("", 0)).2

/-- The mutable state of one `simulateProcessing` run: the closure-local
`progress` and `currentStepIndex` variables plus the status last written
into the project. -/
structure SimState where
  progress : ℚ
  stepIndex : ℕ
  status : ProjectStatus
deriving DecidableEq

/-- One firing of the `setInterval` callback inside `simulateProcessing`
(App.tsx lines 237-272) with the random increment
`δ = Math.random() * 8 + 2` made explicit.  The interval is cleared at
the completion transition, so a completed state takes no further ticks
(modelled as the identity). -/
def simulateProcessingTick (s : SimState) (δ : ℚ) : SimState :=
  if s.status = .completed then s
  else
    let target := stepTargetAt s.stepIndex
    let p := if s.progress < target then min (s.progress + δ) target
             else s.progress
    let i := if s.progress < target then s.stepIndex else s.stepIndex + 1
    if 100 ≤ p ∨ processingSteps.length ≤ i then
      { progress := 100, stepIndex := i, status := .completed }
    else
      { progress := p, stepIndex := i,
        status := if p < 20 then .uploading else .processing }

/-- Confidence of the scene-detection suggestion
(App.tsx line 289): `0.85 + Math.random() * 0.1`. -/
def sceneConfidence (r : ℚ) : ℚ := 0.85 + r * 0.1

/-- Confidence of the audio-enhancement suggestion
(App.tsx line 303): `0.75 + Math.random() * 0.15`. -/
def audioConfidence (r : ℚ) : ℚ := 0.75 + r * 0.15

/-- Confidence of the quality-enhancement suggestion
(App.tsx line 314): `0.70 + Math.random() * 0.2`. -/
def qualityConfidence (r : ℚ) : ℚ := 0.70 + r * 0.2

/-- The confidence values of the suggestion list built by
`generateAISuggestions` (App.tsx lines 281-316): scene detection always,
audio enhancement only when the gate draw exceeds 0.3, quality
enhancement always, in push order. -/
def generateConfidences (rGate r1 r2 r3 : ℚ) : List ℚ :=
  [sceneConfidence r1]
    ++ (if 0.3 < rGate then [audioConfidence r2] else [])
    ++ [qualityConfidence r3]

/-- App.tsx `formatTime` (lines 331-335). -/
def formatTime (seconds : ℚ) : String :=
  let mins : ℤ := ⌊seconds / 60⌋
  let secs : ℤ := ⌊jsFmod seconds 60⌋
  toString mins ++ ":" ++ padTwo (toString secs)

end App

namespace VideoTimeline

/-- Segment kinds (VideoTimeline.tsx, `TimelineSegment.type`). -/
inductive SegmentKind
  | scene
  | transition
  | audio
  | effect
deriving DecidableEq

/-- A timeline segment (VideoTimeline.tsx lines 19-27).  The source field
`end` is a Lean keyword and is embedded as `stop`; `type` is embedded as
`kind`. -/
structure TimelineSegment where
  id : String
  start : ℚ
  stop : ℚ
  kind : SegmentKind
  confidence : ℚ
  label : String
  color : String
deriving DecidableEq

/-- The `defaultSegments` table (VideoTimeline.tsx lines 57-103). -/
def defaultSegments : List TimelineSegment :=
  [⟨"1", 0, 25, .scene, 0.92, "Opening Scene", "bg-blue-500"⟩,
   ⟨"2", 25, 45, .transition, 0.78, "Fade Transition", "bg-purple-500"⟩,
   ⟨"3", 45, 85, .scene, 0.89, "Main Content", "bg-green-500"⟩,
   ⟨"4", 85, 120, .audio, 0.85, "Music Overlay", "bg-yellow-500"⟩,
   ⟨"5", 120, 154, .scene, 0.94, "Closing Scene", "bg-red-500"⟩]

/-- Well-formedness of one segment against the duration of the video it
annotates: `0 ≤ start < end ≤ duration`. -/
def segmentWF (d : ℚ) (s : TimelineSegment) : Prop :=
  0 ≤ s.start ∧ s.start < s.stop ∧ s.stop ≤ d

instance (d : ℚ) (s : TimelineSegment) : Decidable (segmentWF d s) := by
  unfold segmentWF; infer_instance

/-- VideoTimeline.tsx `formatTime` (lines 107-111), defined there
independently of the one in App.tsx. -/
def formatTime (seconds : ℚ) : String :=
  let mins : ℤ := ⌊seconds / 60⌋
  let secs : ℤ := ⌊jsFmod seconds 60⌋
  toString mins ++ ":" ++ padTwo (toString secs)

/-- The clamp applied to a requested seek time
(VideoTimeline.tsx line 133): `Math.max(0, Math.min(duration, newTime))`. -/
def seekClamp (d newTime : ℚ) : ℚ := max 0 (min d newTime)

/-- VideoTimeline.tsx `handleTimelineClick` (lines 125-134): the clicked
x-offset is turned into a fraction of the width, scaled to the duration
and clamped; the result is passed to `onTimeChange`. -/
def timelineClickTime (d clickX width : ℚ) : ℚ :=
  let percentage := clickX / width
  let newTime := percentage * d
  seekClamp d newTime

end VideoTimeline

namespace ExportOptions

/-- Export settings record (ExportOptions.tsx lines 43-53). -/
structure ExportSettings where
  format : String
  resolution : String
  quality : ℚ
  bitrate : ℚ
  fps : ℚ
  codec : String
  audioQuality : ℚ
  includeSubtitles : Bool
  watermark : Bool
deriving DecidableEq

/-- The resolution multiplier table of `updateEstimates`
(ExportOptions.tsx lines 202-207); a resolution string outside the table
falls through to 1 (the `|| 1` default — no table entry is falsy). -/
def resolutionMultiplier (resolution : String) : ℚ :=
  if resolution = "3840x2160" then 4
  else if resolution = "1920x1080" then 1
  else if resolution = "1280x720" then 0.6
  else if resolution = "854x480" then 0.3
  else 1

/-- Estimated size in MB computed by `updateEstimates`
(ExportOptions.tsx lines 209-212):
`Math.round(baseSize * resolutionMultiplier * quality / 100)` with
`baseSize = 45`.  Mathlib's `round` on ℚ rounds half toward positive
infinity, exactly as JavaScript `Math.round` does. -/
def estimatedSizeMB (s : ExportSettings) : ℤ :=
  round ((45 : ℚ) * resolutionMultiplier s.resolution * (s.quality / 100))

/-- Estimated processing time in minutes computed by `updateEstimates`
(ExportOptions.tsx lines 215-216) with `baseTime = 2`. -/
def estimatedTimeMin (s : ExportSettings) : ℤ :=
  round ((2 : ℚ) * resolutionMultiplier s.resolution * (s.quality / 100))

end ExportOptions

/-- The size estimate exactly as the claim words it: a function of the
pair (resolution, quality) alone, with the multiplier case table spelled
out.  Stated to be compared against `ExportOptions.estimatedSizeMB`. -/
def claimSizeMB (resolution : String) (quality : ℚ) : ℤ :=
  let m : ℚ :=
    if resolution = "3840x2160" then 4
    else if resolution = "1920x1080" then 1
    else if resolution = "1280x720" then 0.6
    else if resolution = "854x480" then 0.3
    else 1
  round ((45 : ℚ) * m * (quality / 100))

/-- Every target in the step table is at most 100. -/
theorem stepTargetAt_le_100 (i : ℕ) : App.stepTargetAt i ≤ 100 := by
  rcases i with _ | _ | _ | _ | _ | _ | _ | n <;>
    simp [App.stepTargetAt, App.processingSteps] <;> norm_num

/-- Claim C3: in the timeline's segment index (`defaultSegments`, the only
segment collection in the source, annotating the 154-second video of
App.tsx), every pair of distinct segments has non-intersecting intervals,
the segments are in ascending order by start, and every segment satisfies
0 ≤ start < end ≤ duration. -/
theorem defaultSegments_invariants :
    List.Pairwise (fun a b => a.stop ≤ b.start ∨ b.stop ≤ a.start)
      VideoTimeline.defaultSegments ∧
    List.Pairwise (fun a b => a.start ≤ b.start)
      VideoTimeline.defaultSegments ∧
    VideoTimeline.defaultSegments.Forall
      (VideoTimeline.segmentWF App.duration) := by
  decide

/-- Claim C4: while a job is uploading, the progress written for a
reported transport percentage is `min percent 15`, hence never exceeds
the transport weight 15; when the upload completes the project's
progress is exactly 15 and its status becomes processing. -/
theorem upload_progress_clamped (p : VideoProject) (percent : ℚ) :
    (App.uploadProgressUpdate p p.id percent).progress = min percent 15 ∧
    (App.uploadProgressUpdate p p.id percent).progress ≤ 15 ∧
    (App.uploadCompleteUpdate p p.id).progress = 15 ∧
    (App.uploadCompleteUpdate p p.id).status = .processing := by
  simp [App.uploadProgressUpdate, App.uploadCompleteUpdate, min_le_right]

/-- Claim C8: the size estimate of `updateEstimates` equals
round(45 · m · quality/100) with the multiplier table exactly as the
claim states it (`claimSizeMB`), and it depends on nothing but the
resolution and quality fields of the settings. -/
theorem updateEstimates_pure :
    (∀ s : ExportOptions.ExportSettings,
      ExportOptions.estimatedSizeMB s = claimSizeMB s.resolution s.quality) ∧
    (∀ s₁ s₂ : ExportOptions.ExportSettings,
      s₁.resolution = s₂.resolution → s₁.quality = s₂.quality →
      ExportOptions.estimatedSizeMB s₁ = ExportOptions.estimatedSizeMB s₂) := by
  refine ⟨fun s => rfl, fun s₁ s₂ h1 h2 => ?_⟩
  unfold ExportOptions.estimatedSizeMB
  rw [h1, h2]

/-- Witness for C8: two settings that agree on resolution and quality but
differ in format, bitrate, fps, codec, audio quality, subtitles and
watermark get the same size estimate. -/
theorem updateEstimates_pure_witness :
    ExportOptions.estimatedSizeMB
        ⟨"mp4", "1920x1080", 80, 8000, 30, "h264", 192, false, false⟩ =
      ExportOptions.estimatedSizeMB
        ⟨"mov", "1920x1080", 80, 20000, 60, "h265", 320, true, true⟩ :=
  updateEstimates_pure.2 _ _ rfl rfl

/-- Claim C9: `validateVideoFile` accepts exactly the files whose MIME
type is in the allowed list and whose size is at most 500·1024·1024 bytes
(the boundary included); every rejection carries a non-empty error
message, and a disallowed type is reported as the type error regardless
of the size. -/
theorem validateVideoFile_correct (t : String) (sz : ℕ) :
    ((App.validateVideoFile t sz).valid = true ↔
      t ∈ App.allowedTypes ∧ sz ≤ App.maxSize) ∧
    ((App.validateVideoFile t sz).valid = false →
      ∃ e, (App.validateVideoFile t sz).error = some e ∧ e ≠ "") ∧
    (t ∉ App.allowedTypes →
      (App.validateVideoFile t sz).error = some App.typeErrorMsg) := by
  by_cases hm : t ∈ App.allowedTypes
  · by_cases hsz : App.maxSize < sz
    · have hv : App.validateVideoFile t sz = ⟨false, some App.sizeErrorMsg⟩ := by
        simp [App.validateVideoFile, hm, hsz]
      rw [hv]
      exact ⟨iff_of_false (by simp) (fun h => absurd hsz (not_lt.mpr h.2)),
        fun _ => ⟨App.sizeErrorMsg, rfl, by decide⟩, fun hmm => absurd hm hmm⟩
    · have hv : App.validateVideoFile t sz = ⟨true, none⟩ := by
        simp [App.validateVideoFile, hm, hsz]
      rw [hv]
      exact ⟨iff_of_true rfl ⟨hm, not_lt.mp hsz⟩, by simp,
        fun hmm => absurd hm hmm⟩
  · have hv : App.validateVideoFile t sz = ⟨false, some App.typeErrorMsg⟩ := by
      simp [App.validateVideoFile, hm]
    rw [hv]
    exact ⟨iff_of_false (by simp) (fun h => absurd h.1 hm),
      fun _ => ⟨App.typeErrorMsg, rfl, by decide⟩, fun _ => rfl⟩

/-- Witness for C9: an mp4 file of exactly 500MB is accepted. -/
theorem validateVideoFile_correct_witness :
    (App.validateVideoFile "video/mp4" (500 * 1024 * 1024)).valid = true :=
  (validateVideoFile_correct "video/mp4" (500 * 1024 * 1024)).1.mpr
    ⟨by decide, le_refl _⟩

/-- Counterexample to claim C5: with a job for asset "a.mp4" still active
(status processing, progress 50), submitting a second job for the same
asset does not fail — `handleFileUpload` starts a second concurrent job
and prepends it to the queue.  No `AlreadyProcessingError` (nor any
per-asset lock) exists anywhere in the source. -/
theorem handleFileUpload_second_job_counterexample :
    App.handleFileUpload true [⟨1, "a.mp4", .processing, 50⟩]
        "video/mp4" 1000 "a.mp4" 2 =
      .started [⟨2, "a.mp4", .uploading, 0⟩, ⟨1, "a.mp4", .processing, 50⟩] ∧
    (⟨1, "a.mp4", .processing, 50⟩ : VideoProject).status = .processing ∧
    (⟨2, "a.mp4", .uploading, 0⟩ : VideoProject).status ≠ .completed ∧
    (⟨2, "a.mp4", .uploading, 0⟩ : VideoProject).status ≠ .error := by
  refine ⟨by decide, rfl, by decide, by decide⟩

/-- Claim C5 (amended): `handleFileUpload` never inspects the existing
project list — any submission of a valid file by a signed-in user starts
a new job and prepends it, regardless of how many jobs for the same asset
are still active; no `AlreadyProcessingError` exists. -/
theorem handleFileUpload_ignores_existing (projects : List VideoProject)
    (fileType : String) (fileSize : ℕ) (fileName : String) (newId : ℕ)
    (hv : (App.validateVideoFile fileType fileSize).valid = true) :
    App.handleFileUpload true projects fileType fileSize fileName newId =
      .started ({ id := newId, name := fileName, status := .uploading,
                  progress := 0 } :: projects) := by
  simp [App.handleFileUpload, hv]

/-- Witness for the amended C5: a valid upload while another job for the
same asset is processing starts a second job. -/
theorem handleFileUpload_ignores_existing_witness :
    App.handleFileUpload true [⟨3, "b.mp4", .processing, 60⟩]
        "video/webm" 2048 "b.mp4" 7 =
      .started [⟨7, "b.mp4", .uploading, 0⟩, ⟨3, "b.mp4", .processing, 60⟩] :=
  handleFileUpload_ignores_existing _ _ _ _ _ (by decide)

/-- Counterexample to claim C6: a timeline click requesting time 200 on
the 154-second video (click at x = 200 of a 154-pixel-wide strip) is a
lookup at t = 200, outside [0, 154) — yet `handleTimelineClick` does not
fail with a RangeError: it silently maps the request to the in-range
time 154. -/
theorem timelineClick_out_of_range_counterexample :
    VideoTimeline.timelineClickTime 154 200 154 = 154 ∧
    ¬ ((200 : ℚ) < 154) ∧ ((0 : ℚ) ≤ 154 ∧ (154 : ℚ) ≤ 154) := by
  norm_num [VideoTimeline.timelineClickTime, VideoTimeline.seekClamp]

/-- Claim C6 (amended): a seek request at time t is clamped into
[0, duration] by `handleTimelineClick` — the result is duration when
t exceeds it and 0 when t is negative; no RangeError is raised. -/
theorem seekClamp_in_range (d t : ℚ) (hd : 0 ≤ d) :
    0 ≤ VideoTimeline.seekClamp d t ∧ VideoTimeline.seekClamp d t ≤ d ∧
    (d < t → VideoTimeline.seekClamp d t = d) ∧
    (t < 0 → VideoTimeline.seekClamp d t = 0) := by
  unfold VideoTimeline.seekClamp
  refine ⟨le_max_left 0 _, max_le hd (min_le_left _ _), fun h => ?_, fun h => ?_⟩
  · rw [min_eq_left h.le, max_eq_right hd]
  · rw [min_eq_right (h.le.trans hd), max_eq_left h.le]

/-- Witness for the amended C6, at duration 154 and requested time 200. -/
theorem seekClamp_in_range_witness :
    0 ≤ VideoTimeline.seekClamp 154 200 ∧
    VideoTimeline.seekClamp 154 200 ≤ 154 ∧
    ((154 : ℚ) < 200 → VideoTimeline.seekClamp 154 200 = 154) ∧
    ((200 : ℚ) < 0 → VideoTimeline.seekClamp 154 200 = 0) :=
  seekClamp_in_range 154 200 (by norm_num)


/-- Counterexample to claim C1: the upload phase ends by writing
progress 15 into the project, but `simulateProcessing` restarts its
closure-local progress at 0, so the first interval tick (with the legal
random increment δ = 5 ∈ [2, 10)) overwrites the observed progress 15
with 5 — a strict decrease between two successive observations of a
non-terminal job — and even regresses the status back to uploading. -/
theorem progress_restart_counterexample :
    (App.uploadCompleteUpdate ⟨2, "a.mp4", .uploading, 10⟩ 2).progress = 15 ∧
    (App.simulateProcessingTick ⟨0, 0, .processing⟩ 5).progress = 5 ∧
    (App.simulateProcessingTick ⟨0, 0, .processing⟩ 5).progress < 15 ∧
    (App.simulateProcessingTick ⟨0, 0, .processing⟩ 5).status = .uploading ∧
    ((2 : ℚ) ≤ 5 ∧ (5 : ℚ) < 10) := by
  refine ⟨by simp [App.uploadCompleteUpdate], ?_, ?_, ?_, by norm_num⟩ <;>
    · norm_num [App.simulateProcessingTick, App.stepTargetAt,
        App.processingSteps]
      decide

/-- Claim C1 (amended): within one `simulateProcessing` run, the progress
written by the interval ticks is monotonically non-decreasing and stays
within [0, 100] until the job completes, for every non-negative random
increment; monotonicity across the upload-to-processing handoff fails
(see the counterexample). -/
theorem simulateProcessingTick_monotone (s : App.SimState) (δ : ℚ)
    (hδ : 0 ≤ δ) (h0 : 0 ≤ s.progress) (h1 : s.progress ≤ 100) :
    s.progress ≤ (App.simulateProcessingTick s δ).progress ∧
    0 ≤ (App.simulateProcessingTick s δ).progress ∧
    (App.simulateProcessingTick s δ).progress ≤ 100 := by
  have htar : App.stepTargetAt s.stepIndex ≤ 100 := stepTargetAt_le_100 _
  simp only [App.simulateProcessingTick]
  split_ifs <;>
    refine ⟨?_, ?_, ?_⟩ <;> dsimp only <;>
    first
      | linarith
      | exact le_min (by linarith) (by linarith)
      | exact le_trans (min_le_right _ _) htar

/-- Witness for the amended C1: one tick from the initial simulation
state with increment 5. -/
theorem simulateProcessingTick_monotone_witness :
    (App.SimState.mk 0 0 .processing).progress ≤
      (App.simulateProcessingTick ⟨0, 0, .processing⟩ 5).progress ∧
    0 ≤ (App.simulateProcessingTick ⟨0, 0, .processing⟩ 5).progress ∧
    (App.simulateProcessingTick ⟨0, 0, .processing⟩ 5).progress ≤ 100 :=
  simulateProcessingTick_monotone ⟨0, 0, .processing⟩ 5
    (by norm_num) (by norm_num) (by norm_num)

/-- Claim C2: a tick of the processing simulation leaves the job
completed exactly when it leaves the progress at 100 — the completion
transition sets progress to 100, and every non-completed result of a
tick has progress strictly below 100. -/
theorem simulateProcessingTick_completed_iff (s : App.SimState) (δ : ℚ)
    (h : s.status ≠ .completed) :
    ((App.simulateProcessingTick s δ).status = .completed ↔
      (App.simulateProcessingTick s δ).progress = 100) := by
  simp only [App.simulateProcessingTick, if_neg h]
  split_ifs <;> simp <;>
    (intro hp
     push_neg at *
     linarith)

/-- Witness for C2: one tick from the initial simulation state. -/
theorem simulateProcessingTick_completed_iff_witness :
    ((App.simulateProcessingTick ⟨0, 0, .processing⟩ 5).status = .completed ↔
      (App.simulateProcessingTick ⟨0, 0, .processing⟩ 5).progress = 100) :=
  simulateProcessingTick_completed_iff ⟨0, 0, .processing⟩ 5 (by decide)

/-- Claim C7: every confidence value produced by `generateAISuggestions`
lies in [0, 1], for every draw of the random values used (each
`Math.random()` result lies in [0, 1); the gate draw is unconstrained
since it only selects whether the audio suggestion appears). -/
theorem generateAISuggestions_confidence (rGate r1 r2 r3 : ℚ)
    (h1 : 0 ≤ r1) (h1u : r1 < 1) (h2 : 0 ≤ r2) (h2u : r2 < 1)
    (h3 : 0 ≤ r3) (h3u : r3 < 1) :
    ∀ c ∈ App.generateConfidences rGate r1 r2 r3, 0 ≤ c ∧ c ≤ 1 := by
  intro c hc
  simp only [App.generateConfidences, List.mem_append, List.mem_singleton] at hc
  rcases hc with (rfl | hc) | rfl
  · unfold App.sceneConfidence
    constructor <;> nlinarith
  · by_cases hgate : (0.3 : ℚ) < rGate
    · simp only [if_pos hgate, List.mem_singleton] at hc
      subst hc
      unfold App.audioConfidence
      constructor <;> nlinarith
    · simp [if_neg hgate] at hc
  · unfold App.qualityConfidence
    constructor <;> nlinarith

/-- Witness for C7: the scene-detection confidence at draw 1/2. -/
theorem generateAISuggestions_confidence_witness :
    0 ≤ App.sceneConfidence (1 / 2) ∧ App.sceneConfidence (1 / 2) ≤ 1 :=
  generateAISuggestions_confidence (1 / 2) (1 / 2) (1 / 2) (1 / 2)
    (by norm_num) (by norm_num) (by norm_num) (by norm_num)
    (by norm_num) (by norm_num) (App.sceneConfidence (1 / 2))
    (List.mem_append_left _ (List.mem_append_left _
      (List.mem_singleton_self _)))

/-- A zero-padded decimal below 60 always renders as exactly two
characters. -/
theorem padTwo_length_lt60 :
    ∀ n : ℕ, n < 60 → (padTwo (toString (Int.ofNat n))).length = 2 := by
  decide

/-- Claim C10: the `formatTime` functions defined independently in
App.tsx and VideoTimeline.tsx agree on every rational input, and for
every non-negative number of seconds the shared result is a minutes
value, a colon, and a two-digit zero-padded seconds part whose value is
below 60. -/
theorem formatTime_agree (q : ℚ) (hq : 0 ≤ q) :
    App.formatTime q = VideoTimeline.formatTime q ∧
    ∃ m s : ℤ, 0 ≤ s ∧ s < 60 ∧
      App.formatTime q = toString m ++ ":" ++ padTwo (toString s) ∧
      (padTwo (toString s)).length = 2 := by
  have hdiv : (0 : ℚ) ≤ q / 60 := div_nonneg hq (by norm_num)
  have htr : jsTrunc (q / 60) = ⌊q / 60⌋ := if_pos hdiv
  have hfd : jsFmod q 60 = 60 * Int.fract (q / 60) := by
    simp only [jsFmod, htr, Int.fract]
    field_simp
  have h0f : 0 ≤ jsFmod q 60 := by
    rw [hfd]
    exact mul_nonneg (by norm_num) (Int.fract_nonneg _)
  have h1f : jsFmod q 60 < 60 := by
    rw [hfd]
    have := Int.fract_lt_one (q / 60)
    linarith
  have hs0 : 0 ≤ ⌊jsFmod q 60⌋ := Int.floor_nonneg.mpr h0f
  have hs1 : ⌊jsFmod q 60⌋ < 60 := by
    rw [Int.floor_lt]
    exact_mod_cast h1f
  refine ⟨rfl, ⌊q / 60⌋, ⌊jsFmod q 60⌋, hs0, hs1, rfl, ?_⟩
  obtain ⟨n, hn⟩ := Int.eq_ofNat_of_zero_le hs0
  rw [hn]
  exact padTwo_length_lt60 n (by exact_mod_cast hn ▸ hs1)

/-- Witness for C10, at 95 seconds. -/
theorem formatTime_agree_witness :
    App.formatTime 95 = VideoTimeline.formatTime 95 ∧
    ∃ m s : ℤ, 0 ≤ s ∧ s < 60 ∧
      App.formatTime 95 = toString m ++ ":" ++ padTwo (toString s) ∧
      (padTwo (toString s)).length = 2 :=
  formatTime_agree 95 (by norm_num)
